import Mathlib

/-!
# Employment backend: applicant routes and authorization middleware

A shallow embedding of `Backend/middleware/authorize.js` and of the handlers of
`Backend/routes/applicants.js` that the verified properties are about.

Modelling conventions.

* A table is the list of its rows, in the order the database returns them.
  `select ... where c = ?` is `List.filter`, `update ... where c = ?` is `List.map`
  rewriting the matching rows, `delete ... where c = ?` is `List.filter` on the
  complement, `insert` appends a row.  SQL `=` is modelled as equality.
* `rows[0]` of a query result is the head of the filtered list; `!rows[0]` holds
  exactly for the empty result.
* A handler returns the ordered list of its `res.status(..).json(..)` calls (the
  client receives the first one), the ordered list of SQL statements handed to
  `query`, the final database and, for middleware, whether `next()` was called.
* Values produced by external collaborators (validation verdict, bcrypt digest,
  random token, auto-increment id and column defaults) are parameters.
-/

namespace Employment

/-! ## Data model -/

/-- Modelled from the spec: the schema of `user_requests` is not among the sources; the
data model gives `status` as one of Pending, Accepted, Declined. -/
inductive Status where
  | Pending
  | Accepted
  | Declined
deriving DecidableEq, Repr

/-- The string the database driver hands to JavaScript for a stored status. -/
def Status.toString : Status → String
  | .Pending => "Pending"
  | .Accepted => "Accepted"
  | .Declined => "Declined"

/-- Row of `users(id, name, email, password, phone, token, type)`. -/
structure User where
  id : Nat
  name : String
  email : String
  password : String
  phone : String
  token : String
  type : Nat
deriving DecidableEq, Repr

/-- Row of `jobs(id, position, max_candidate_number, ...)`. -/
structure Job where
  id : Nat
  position : String
  max_candidate_number : Int
deriving DecidableEq, Repr

/-- Row of `user_requests(id, user_id, job_id, requested_time, status)`. -/
structure UserRequest where
  id : Nat
  user_id : Nat
  job_id : Nat
  requested_time : Nat
  status : Status
deriving DecidableEq, Repr

/-- The three tables the handlers touch. -/
structure Db where
  users : List User
  jobs : List Job
  user_requests : List UserRequest
deriving DecidableEq, Repr

/-- A user object as serialised into a response: `delete u.password` removes the field. -/
structure UserJson where
  id : Nat
  name : String
  email : String
  password : Option String
  phone : String
  token : String
  type : Nat
deriving DecidableEq, Repr

/-- Row as the driver returns it: every column present. -/
def User.toJson (u : User) : UserJson :=
  { id := u.id, name := u.name, email := u.email, password := some u.password,
    phone := u.phone, token := u.token, type := u.type }

/-- JavaScript `delete u.password`. -/
def UserJson.deletePassword (u : UserJson) : UserJson :=
  { u with password := none }

/-- The `userData` object of the create handler (lines 54-60), after
`delete userData.password` when `password = none`. -/
structure UserData where
  name : String
  email : String
  password : Option String
  phone : String
  token : String
deriving DecidableEq, Repr

/-- JSON bodies the modelled handlers send. -/
inductive Body where
  | msg (text : String)
  | errors (texts : List String)
  | validationErrors
  | created (u : UserData)
  | users (us : List UserJson)
  | error
deriving DecidableEq, Repr

/-- One `res.status(code).json(body)` call. -/
structure Response where
  status : Nat
  body : Body
deriving DecidableEq, Repr

/-- SQL statements handed to `query`, with their parameters. -/
inductive Stmt where
  | selectUsersByToken (token : Option String)
  | selectUsersByEmail (email : String)
  | insertUser (name email password phone token : String)
  | selectApplicantById (id : Nat)
  | updateUser (name email phone password : String) (id : Nat)
  | deleteUser (id : Nat)
  | selectApplicants
  | selectRequestById (id : Nat)
  | selectJobById (id : Nat)
  | updateRequestStatus (status : Status) (id : Nat)
  | decrementJob (id : Nat)
  | declinePending (jobId : Nat)
deriving DecidableEq, Repr

/-- Statements that modify a table (`insert`, `update`, `delete`). -/
def Stmt.isWrite : Stmt → Bool
  | .insertUser _ _ _ _ _ => true
  | .updateUser _ _ _ _ _ => true
  | .deleteUser _ => true
  | .updateRequestStatus _ _ => true
  | .decrementJob _ => true
  | .declinePending _ => true
  | _ => false

/-- What a route handler did. -/
structure Result where
  responses : List Response
  trace : List Stmt
  db : Db
deriving DecidableEq, Repr

/-- What a middleware did. -/
structure MiddlewareResult where
  nextCalled : Bool
  responses : List Response
  trace : List Stmt
  db : Db
deriving DecidableEq, Repr

/-! ## SQL statements of the request workflow -/

/-- Statement `SELECT * FROM user_requests WHERE id = ?`. -/
def selectRequestById (db : Db) (id : Nat) : List UserRequest :=
  db.user_requests.filter (fun r => r.id == id)

/-- Statement `SELECT * FROM jobs WHERE id = ?`. -/
def selectJobById (db : Db) (id : Nat) : List Job :=
  db.jobs.filter (fun j => j.id == id)

/-- Statement `UPDATE user_requests SET ? WHERE id = ?` with `{status}` (lines 253-256). -/
def updateRequestStatus (db : Db) (status : Status) (id : Nat) : Db :=
  { db with user_requests :=
      db.user_requests.map (fun r => if r.id = id then { r with status := status } else r) }

/-- Statement `UPDATE jobs SET max_candidate_number = max_candidate_number - 1 WHERE id = ?`. -/
def decrementJob (db : Db) (id : Nat) : Db :=
  { db with jobs :=
      db.jobs.map (fun j =>
        if j.id = id then { j with max_candidate_number := j.max_candidate_number - 1 } else j) }

/-- Statement `UPDATE user_requests SET status = Declined WHERE status = Pending AND job_id = ?`
(lines 277-280 and 288-291). -/
def declinePending (db : Db) (jobId : Nat) : Db :=
  { db with user_requests :=
      db.user_requests.map (fun r =>
        if r.status = Status.Pending ∧ r.job_id = jobId then
          { r with status := Status.Declined } else r) }

/-- JavaScript `job.length > 0 && job[0].max_candidate_number === 0`. -/
def capacityIsZero : List Job → Bool
  | [] => false
  | j :: _ => j.max_candidate_number == 0

/-- JavaScript `job.length > 0 && job[0].max_candidate_number > 0`. -/
def capacityIsPositive : List Job → Bool
  | [] => false
  | j :: _ => decide (0 < j.max_candidate_number)

/-- Message of the two cascade branches (lines 282 and 293). -/
def msgReached : String :=
  "Maximum number of candidates has been reached for this job. All pending requests have been declined."

/-- Message of the capacity guard (line 245). -/
def msgAlreadyReached : String :=
  "Maximum number of candidates has already been reached for this job. Cannot accept more requests!"

/-- Message of the ordinary transition (line 300). -/
def msgUpdated : String := "User request status updated successfully!"

/-! ## `PUT /requests/:id` (applicants.js, lines 215-309) -/

/-- The handler of `PUT /requests/:id`.  `id` is `req.params.id`; `status` is
`req.body.status`, `none` standing for a missing or non-string value. -/
def putRequest (db : Db) (id : Nat) (status : Option String) : Result :=
  let t1 := [Stmt.selectRequestById id]
  match selectRequestById db id with
  | [] => ⟨[⟨404, .msg "User request not found!"⟩], t1, db⟩
  | ur :: _ =>
    if status = some "Accepted" ∨ status = some "Declined" then
      if status = some ur.status.toString then
        ⟨[⟨400, .msg ("User request status is already " ++ ur.status.toString ++ "!")⟩], t1, db⟩
      else
        let t2 := if status = some "Accepted" then t1 ++ [Stmt.selectJobById ur.job_id] else t1
        if status = some "Accepted" ∧ capacityIsZero (selectJobById db ur.job_id) = true then
          ⟨[⟨400, .msg msgAlreadyReached⟩], t2, db⟩
        else
          let newStatus := if status = some "Accepted" then Status.Accepted else Status.Declined
          let db1 := updateRequestStatus db newStatus id
          let t3 := t2 ++ [Stmt.updateRequestStatus newStatus id]
          if status = some "Accepted" then
            let t4 := t3 ++ [Stmt.selectJobById ur.job_id]
            if capacityIsPositive (selectJobById db1 ur.job_id) = true then
              let db2 := decrementJob db1 ur.job_id
              let t5 := t4 ++ [Stmt.decrementJob ur.job_id, Stmt.selectJobById ur.job_id]
              if capacityIsZero (selectJobById db2 ur.job_id) = true then
                ⟨[⟨200, .msg msgReached⟩], t5 ++ [Stmt.declinePending ur.job_id],
                  declinePending db2 ur.job_id⟩
              else
                ⟨[⟨200, .msg msgUpdated⟩], t5, db2⟩
            else
              ⟨[⟨200, .msg msgReached⟩], t4 ++ [Stmt.declinePending ur.job_id],
                declinePending db1 ur.job_id⟩
          else
            ⟨[⟨200, .msg msgUpdated⟩], t3, db1⟩
    else
      ⟨[⟨400, .msg "Invalid status value!"⟩], t1, db⟩

/-! ## `authorized` (authorize.js, lines 4-15) -/

/-- Statement `select * from users where token = ?`; an `undefined` parameter is sent as `NULL`,
and `token = NULL` matches no row. -/
def selectUsersByToken (db : Db) (token : Option String) : List User :=
  match token with
  | none => []
  | some t => db.users.filter (fun u => u.token == t)

/-- The middleware `authorized`; `token` is `req.headers.token`. -/
def authorized (db : Db) (token : Option String) : MiddlewareResult :=
  let t1 := [Stmt.selectUsersByToken token]
  match selectUsersByToken db token with
  | _ :: _ => ⟨true, [], t1, db⟩
  | [] => ⟨false, [⟨403, .msg "You are not Authorized to access this route !"⟩], t1, db⟩

/-! ## Applicant CRUD (applicants.js, lines 13-162) -/

/-- The fields of `req.body` the create and update handlers read.  A body that passes
validation carries all four as strings. -/
structure ApplicantBody where
  name : String
  email : String
  phone : String
  password : String
deriving DecidableEq, Repr

/-- Statement `select * from users where email = ?`. -/
def selectUsersByEmail (db : Db) (email : String) : List User :=
  db.users.filter (fun u => u.email == email)

/-- Modelled from the spec: the schema of `users` is not among the sources.  `insert into
users set ?` adds one row; `id` and `type` are not in `userData` and are filled in by the
database (`newId`, `defaultType`).  Per the spec the insert goes through for an email that
is already stored ("the existing flow inserts anyway"), so no unique index rejects it. -/
def insertUser (db : Db) (name email password phone token : String)
    (newId defaultType : Nat) : Db :=
  { db with users := db.users ++
      [{ id := newId, name := name, email := email, password := password, phone := phone,
         token := token, type := defaultType }] }

/-- Statement `select * from users where id = ? AND type = 0`. -/
def selectApplicantById (db : Db) (id : Nat) : List User :=
  db.users.filter (fun u => u.id == id && u.type == 0)

/-- Statement `update users set ? where id = ?` with `userObj = {name, email, phone, password}`. -/
def updateUser (db : Db) (name email phone password : String) (id : Nat) : Db :=
  { db with users := db.users.map (fun u =>
      if u.id = id then
        { u with name := name, email := email, phone := phone, password := password }
      else u) }

/-- Statement `delete from users where id = ?`. -/
def deleteUser (db : Db) (id : Nat) : Db :=
  { db with users := db.users.filter (fun u => !(u.id == id)) }

/-- Statement `select * from users where type = 0`. -/
def selectApplicants (db : Db) : List User :=
  db.users.filter (fun u => u.type == 0)

/-- The handler of `POST /create` (lines 29-69).  `valid` is `errors.isEmpty()`, `hashed`
the bcrypt digest of `body.password`, `token` the random hex token.

The duplicate-email branch (lines 43-51) sends 400 and does not return: execution goes on
to the insert.  `res.status(200).json(userData)` on an already answered request throws,
and the `catch` block then calls `res.status(500).json(..)`. -/
def postCreate (db : Db) (valid : Bool) (body : ApplicantBody) (hashed token : String)
    (newId defaultType : Nat) : Result :=
  if valid = false then
    ⟨[⟨400, .validationErrors⟩], [], db⟩
  else
    let t1 := [Stmt.selectUsersByEmail body.email]
    let checkEmailExists := selectUsersByEmail db body.email
    let r1 : List Response :=
      if checkEmailExists.length > 0 then [⟨400, .errors ["email is already exists!"]⟩] else []
    let db1 := insertUser db body.name body.email hashed body.phone token newId defaultType
    let t2 := t1 ++ [Stmt.insertUser body.name body.email hashed body.phone token]
    let r2 : List Response :=
      r1 ++ [⟨200, .created ⟨body.name, body.email, none, body.phone, token⟩⟩]
    let r3 : List Response := if r1 = [] then r2 else r2 ++ [⟨500, .error⟩]
    ⟨r3, t2, db1⟩

/-- The handler of `PUT /update/:id` (lines 89-125).

The not-found branch (lines 104-106) sends 404 and does not return.  Building the
arguments of the `update` call then evaluates `user[0].id` with `user[0]` undefined: a
TypeError is thrown before `query` is invoked, and the `catch` block calls
`res.status(500).json(error)`. -/
def putUpdate (db : Db) (valid : Bool) (id : Nat) (body : ApplicantBody)
    (hashed : String) : Result :=
  if valid = false then
    ⟨[⟨400, .validationErrors⟩], [], db⟩
  else
    let t1 := [Stmt.selectApplicantById id]
    match selectApplicantById db id with
    | [] => ⟨[⟨404, .msg "Applicant not found !"⟩, ⟨500, .error⟩], t1, db⟩
    | u :: _ =>
      ⟨[⟨200, .msg "Applicant Updated Successfully !"⟩],
        t1 ++ [Stmt.updateUser body.name body.email body.phone hashed u.id],
        updateUser db body.name body.email body.phone hashed u.id⟩

/-- The handler of `DELETE /delete/:id` (lines 129-150); the not-found branch behaves as
in `putUpdate`: 404, then a TypeError on `user[0].id` before `query` is invoked. -/
def deleteApplicant (db : Db) (id : Nat) : Result :=
  let t1 := [Stmt.selectApplicantById id]
  match selectApplicantById db id with
  | [] => ⟨[⟨404, .msg "Applicant not found !"⟩, ⟨500, .error⟩], t1, db⟩
  | u :: _ =>
    ⟨[⟨200, .msg "Applicant Deleted Successfully !"⟩], t1 ++ [Stmt.deleteUser u.id],
      deleteUser db u.id⟩

/-- The handler of `GET /all` (lines 153-162): `delete users[0].password` strips the first
record only; on an empty result `users[0]` is undefined, the `delete` throws and the
`catch` block answers 500. -/
def getAll (db : Db) : Result :=
  let t1 := [Stmt.selectApplicants]
  match (selectApplicants db).map User.toJson with
  | [] => ⟨[⟨500, .error⟩], t1, db⟩
  | u :: rest => ⟨[⟨200, .users (u.deletePassword :: rest)⟩], t1, db⟩

/-- Number of `users` rows with the given email. -/
def emailCount (db : Db) (email : String) : Nat :=
  (db.users.filter (fun u => u.email == email)).length

/-! ## Sample states -/

/-- One job with a single free slot and two pending requests for it. -/
def dbOneSlot : Db :=
  { users := [],
    jobs := [⟨7, "Engineer", 1⟩],
    user_requests := [⟨1, 10, 7, 100, .Pending⟩, ⟨2, 11, 7, 101, .Pending⟩] }

/-- The state `dbOneSlot` after request 1 was accepted: no slot left, request 2 declined. -/
def dbFull : Db :=
  { users := [],
    jobs := [⟨7, "Engineer", 0⟩],
    user_requests := [⟨1, 10, 7, 100, .Accepted⟩, ⟨2, 11, 7, 101, .Declined⟩] }

/-- One job with three free slots and two pending requests for it. -/
def dbThreeSlots : Db :=
  { users := [],
    jobs := [⟨7, "Engineer", 3⟩, ⟨8, "Designer", 1⟩],
    user_requests := [⟨1, 10, 7, 100, .Pending⟩, ⟨2, 11, 7, 101, .Pending⟩] }

/-- Two applicants and one administrator. -/
def dbUsers : Db :=
  { users := [⟨1, "Alice Example", "alice@example.com", "h1", "01000000001", "t1", 0⟩,
              ⟨2, "Bobby Example", "bobby@example.com", "h2", "01000000002", "t2", 0⟩,
              ⟨3, "Admin Example", "admin@example.com", "h3", "01000000003", "t3", 1⟩],
    jobs := [],
    user_requests := [] }

/-! ## Auxiliary facts -/

theorem toString_eq_accepted (s : Status) :
    s.toString = "Accepted" ↔ s = Status.Accepted := by
  cases s <;> simp [Status.toString]

theorem toString_eq_declined (s : Status) :
    s.toString = "Declined" ↔ s = Status.Declined := by
  cases s <;> simp [Status.toString]

theorem selectJobById_updateRequestStatus (db : Db) (st : Status) (id jid : Nat) :
    selectJobById (updateRequestStatus db st id) jid = selectJobById db jid := rfl

theorem filter_id_map_decrement (l : List Job) (jid : Nat) :
    (l.map (fun j =>
        if j.id = jid then { j with max_candidate_number := j.max_candidate_number - 1 }
        else j)).filter (fun j => j.id == jid) =
      (l.filter (fun j => j.id == jid)).map
        (fun j => { j with max_candidate_number := j.max_candidate_number - 1 }) := by
  induction l with
  | nil => rfl
  | cons a l ih =>
    by_cases h : a.id = jid
    · simp [List.filter_cons, h, ih]
    · simp [List.filter_cons, h, ih]

theorem selectJobById_decrementJob (db : Db) (jid : Nat) :
    selectJobById (decrementJob db jid) jid =
      (selectJobById db jid).map
        (fun j => { j with max_candidate_number := j.max_candidate_number - 1 }) := by
  simp only [selectJobById, decrementJob]
  exact filter_id_map_decrement db.jobs jid

/-- Lines 224-227: no row with the given id. -/
theorem putRequest_not_found (db : Db) (id : Nat) (status : Option String)
    (hreq : selectRequestById db id = []) :
    putRequest db id status =
      ⟨[⟨404, .msg "User request not found!"⟩], [Stmt.selectRequestById id], db⟩ := by
  simp [putRequest, hreq]

/-- Lines 302-304: a status outside {Accepted, Declined}. -/
theorem putRequest_invalid (db : Db) (id : Nat) (status : Option String) (ur : UserRequest)
    (rest : List UserRequest) (hreq : selectRequestById db id = ur :: rest)
    (hinv : ¬ (status = some "Accepted" ∨ status = some "Declined")) :
    putRequest db id status =
      ⟨[⟨400, .msg "Invalid status value!"⟩], [Stmt.selectRequestById id], db⟩ := by
  simp [putRequest, hreq, hinv]

/-- Lines 232-237: the requested status is the current one. -/
theorem putRequest_same (db : Db) (id : Nat) (status : Option String) (ur : UserRequest)
    (rest : List UserRequest) (hreq : selectRequestById db id = ur :: rest)
    (hvalid : status = some "Accepted" ∨ status = some "Declined")
    (hsame : status = some ur.status.toString) :
    putRequest db id status =
      ⟨[⟨400, .msg ("User request status is already " ++ ur.status.toString ++ "!")⟩],
        [Stmt.selectRequestById id], db⟩ := by
  simp only [putRequest, hreq]
  rw [if_pos hvalid, if_pos hsame]

/-- Lines 250-256 and 299-301: declining a request that is not Declined. -/
theorem putRequest_decline (db : Db) (id : Nat) (ur : UserRequest)
    (rest : List UserRequest) (hreq : selectRequestById db id = ur :: rest)
    (hdiff : ur.status ≠ Status.Declined) :
    putRequest db id (some "Declined") =
      ⟨[⟨200, .msg msgUpdated⟩],
        [Stmt.selectRequestById id, Stmt.updateRequestStatus Status.Declined id],
        updateRequestStatus db Status.Declined id⟩ := by
  have h2 : ¬ ("Declined" = ur.status.toString) := by
    intro h; exact hdiff ((toString_eq_declined _).1 h.symm)
  simp [putRequest, hreq, h2]

/-- Lines 239-297: accepting a request that is not Accepted, by the three capacity tests
the handler performs on the first row of the job lookup. -/
theorem putRequest_accept (db : Db) (id : Nat) (ur : UserRequest)
    (rest : List UserRequest) (hreq : selectRequestById db id = ur :: rest)
    (hdiff : ur.status ≠ Status.Accepted) :
    putRequest db id (some "Accepted") =
      if capacityIsZero (selectJobById db ur.job_id) = true then
        ⟨[⟨400, .msg msgAlreadyReached⟩],
          [Stmt.selectRequestById id, Stmt.selectJobById ur.job_id], db⟩
      else if capacityIsPositive (selectJobById db ur.job_id) = true then
        if capacityIsZero (selectJobById (decrementJob db ur.job_id) ur.job_id) = true then
          ⟨[⟨200, .msg msgReached⟩],
            [Stmt.selectRequestById id, Stmt.selectJobById ur.job_id,
              Stmt.updateRequestStatus Status.Accepted id, Stmt.selectJobById ur.job_id,
              Stmt.decrementJob ur.job_id, Stmt.selectJobById ur.job_id,
              Stmt.declinePending ur.job_id],
            declinePending (decrementJob (updateRequestStatus db Status.Accepted id) ur.job_id)
              ur.job_id⟩
        else
          ⟨[⟨200, .msg msgUpdated⟩],
            [Stmt.selectRequestById id, Stmt.selectJobById ur.job_id,
              Stmt.updateRequestStatus Status.Accepted id, Stmt.selectJobById ur.job_id,
              Stmt.decrementJob ur.job_id, Stmt.selectJobById ur.job_id],
            decrementJob (updateRequestStatus db Status.Accepted id) ur.job_id⟩
      else
        ⟨[⟨200, .msg msgReached⟩],
          [Stmt.selectRequestById id, Stmt.selectJobById ur.job_id,
            Stmt.updateRequestStatus Status.Accepted id, Stmt.selectJobById ur.job_id,
            Stmt.declinePending ur.job_id],
          declinePending (updateRequestStatus db Status.Accepted id) ur.job_id⟩ := by
  have h2 : ¬ ("Accepted" = ur.status.toString) := by
    intro h; exact hdiff ((toString_eq_accepted _).1 h.symm)
  have e1 : selectJobById (updateRequestStatus db Status.Accepted id) ur.job_id =
      selectJobById db ur.job_id := rfl
  have e2 : selectJobById (decrementJob (updateRequestStatus db Status.Accepted id) ur.job_id)
      ur.job_id = selectJobById (decrementJob db ur.job_id) ur.job_id := rfl
  simp only [putRequest, hreq]
  simp [h2]
  rfl

/-- The five ways the handler can leave the database. -/
theorem putRequest_db_cases (db : Db) (id : Nat) (status : Option String) :
    (putRequest db id status).db = db ∨
      (∃ ur rest, selectRequestById db id = ur :: rest ∧ status = some "Declined" ∧
        (putRequest db id status).db = updateRequestStatus db Status.Declined id) ∨
      (∃ ur rest j0 jrest, selectRequestById db id = ur :: rest ∧ status = some "Accepted" ∧
        selectJobById db ur.job_id = j0 :: jrest ∧ 0 < j0.max_candidate_number ∧
        ((putRequest db id status).db =
            declinePending (decrementJob (updateRequestStatus db Status.Accepted id) ur.job_id)
              ur.job_id ∨
          (putRequest db id status).db =
            decrementJob (updateRequestStatus db Status.Accepted id) ur.job_id)) ∨
      (∃ ur rest, selectRequestById db id = ur :: rest ∧ status = some "Accepted" ∧
        (putRequest db id status).db =
          declinePending (updateRequestStatus db Status.Accepted id) ur.job_id) := by
  cases hreq : selectRequestById db id with
  | nil => left; rw [putRequest_not_found db id status hreq]
  | cons ur rest =>
    by_cases hvalid : status = some "Accepted" ∨ status = some "Declined"
    · by_cases hsame : status = some ur.status.toString
      · left; rw [putRequest_same db id status ur rest hreq hvalid hsame]
      · rcases hvalid with hA | hD
        · subst hA
          have hdiff : ur.status ≠ Status.Accepted := by
            intro h; apply hsame; rw [h]; rfl
          rw [putRequest_accept db id ur rest hreq hdiff]
          by_cases c1 : capacityIsZero (selectJobById db ur.job_id) = true
          · left; rw [if_pos c1]
          · rw [if_neg c1]
            by_cases c2 : capacityIsPositive (selectJobById db ur.job_id) = true
            · rw [if_pos c2]
              right; right; left
              cases hjob : selectJobById db ur.job_id with
              | nil => simp [hjob, capacityIsPositive] at c2
              | cons j0 jrest =>
                refine ⟨ur, rest, j0, jrest, rfl, rfl, hjob, ?_, ?_⟩
                · simpa [hjob, capacityIsPositive] using c2
                · split_ifs
                  · left; rfl
                  · right; rfl
            · rw [if_neg c2]
              right; right; right
              exact ⟨ur, rest, rfl, rfl, rfl⟩
        · subst hD
          have hdiff : ur.status ≠ Status.Declined := by
            intro h; apply hsame; rw [h]; rfl
          right; left
          exact ⟨ur, rest, rfl, rfl, by rw [putRequest_decline db id ur rest hreq hdiff]⟩
    · left; rw [putRequest_invalid db id status ur rest hreq hvalid]

/-- Every run of `postCreate` past validation adds a row with the email of the body,
whether or not that email was already stored. -/
theorem postCreate_emailCount (db : Db) (body : ApplicantBody) (hashed token : String)
    (newId defaultType : Nat) :
    emailCount (postCreate db true body hashed token newId defaultType).db body.email =
      emailCount db body.email + 1 := by
  simp [postCreate, insertUser, emailCount]

/-- The decrement statement rewrites every row with the job id, while the guard reads the
first one only: on a table where `jobs.id` is not a key a capacity can go below zero.
This is why the capacity invariant is stated for tables keyed by `id`. -/
theorem decrementJob_without_key :
    (putRequest ⟨[], [⟨7, "Engineer", 1⟩, ⟨7, "Engineer", 0⟩], [⟨1, 10, 7, 100, .Pending⟩]⟩ 1
        (some "Accepted")).db.jobs =
      [⟨7, "Engineer", 0⟩, ⟨7, "Engineer", -1⟩] := by
  decide

/-! ## Verified properties -/

/-- C2: accepting a request whose job exists with `max_candidate_number = 0` is answered
with a single 400 response, no write statement is issued, and the database after the call
equals the database before it, whatever the current status of the request. -/
theorem putRequest_accept_full_rejected (db : Db) (id : Nat) (ur : UserRequest)
    (rest : List UserRequest) (j : Job) (jrest : List Job)
    (hreq : selectRequestById db id = ur :: rest)
    (hjob : selectJobById db ur.job_id = j :: jrest)
    (hcap : j.max_candidate_number = 0) :
    (putRequest db id (some "Accepted")).responses =
        [⟨400, .msg (if ur.status = Status.Accepted
                      then "User request status is already Accepted!"
                      else msgAlreadyReached)⟩] ∧
      (putRequest db id (some "Accepted")).db = db ∧
      ∀ q ∈ (putRequest db id (some "Accepted")).trace, q.isWrite = false := by
  by_cases hs : ur.status = Status.Accepted
  · simp [putRequest, hreq, hs, Status.toString, Stmt.isWrite]
  · have hs2 : ¬ ("Accepted" = ur.status.toString) := by
      intro h; exact hs ((toString_eq_accepted _).1 h.symm)
    simp [putRequest, hreq, hjob, hcap, hs, hs2, capacityIsZero, Stmt.isWrite]

theorem putRequest_accept_full_rejected_witness :
    (putRequest dbFull 2 (some "Accepted")).responses =
        [⟨400, .msg (if (⟨2, 11, 7, 101, .Declined⟩ : UserRequest).status = Status.Accepted
                      then "User request status is already Accepted!"
                      else msgAlreadyReached)⟩] ∧
      (putRequest dbFull 2 (some "Accepted")).db = dbFull ∧
      ∀ q ∈ (putRequest dbFull 2 (some "Accepted")).trace, q.isWrite = false :=
  putRequest_accept_full_rejected dbFull 2 ⟨2, 11, 7, 101, .Declined⟩ [] ⟨7, "Engineer", 0⟩ []
    rfl rfl rfl

/-- C3: a requested status in {Accepted, Declined} equal to the current status of the
request is answered with a single 400 response, no write statement is issued, and the
database (in particular the job capacity) is unchanged. -/
theorem putRequest_same_status_rejected (db : Db) (id : Nat) (ur : UserRequest)
    (rest : List UserRequest) (status : String)
    (hreq : selectRequestById db id = ur :: rest)
    (hvalid : status = "Accepted" ∨ status = "Declined")
    (hsame : status = ur.status.toString) :
    (putRequest db id (some status)).responses =
        [⟨400, .msg ("User request status is already " ++ status ++ "!")⟩] ∧
      (putRequest db id (some status)).db = db ∧
      ∀ q ∈ (putRequest db id (some status)).trace, q.isWrite = false := by
  subst hsame
  simp [putRequest, hreq, hvalid, Stmt.isWrite]

theorem putRequest_same_status_rejected_witness :
    (putRequest dbFull 1 (some "Accepted")).responses =
        [⟨400, .msg ("User request status is already " ++ "Accepted" ++ "!")⟩] ∧
      (putRequest dbFull 1 (some "Accepted")).db = dbFull ∧
      ∀ q ∈ (putRequest dbFull 1 (some "Accepted")).trace, q.isWrite = false :=
  putRequest_same_status_rejected dbFull 1 ⟨1, 10, 7, 100, .Accepted⟩ []
    "Accepted" rfl (Or.inl rfl) rfl

/-- C6: `authorized` calls `next()` and sends nothing exactly when some user row stores
the header token; otherwise it sends the fixed 403 response and does not call `next()`.
Either way it issues exactly one statement, the token lookup, which is not a write, and
leaves the database unchanged. -/
theorem authorized_spec (db : Db) (token : Option String) :
    (((authorized db token).nextCalled = true ∧ (authorized db token).responses = []) ↔
        ∃ u ∈ db.users, some u.token = token) ∧
      ((¬ ∃ u ∈ db.users, some u.token = token) →
        (authorized db token).nextCalled = false ∧
        (authorized db token).responses =
          [⟨403, .msg "You are not Authorized to access this route !"⟩]) ∧
      (authorized db token).trace = [Stmt.selectUsersByToken token] ∧
      (∀ q ∈ (authorized db token).trace, q.isWrite = false) ∧
      (authorized db token).db = db := by
  have key : (∃ u ∈ db.users, some u.token = token) ↔ selectUsersByToken db token ≠ [] := by
    cases token with
    | none => simp [selectUsersByToken]
    | some t => simp [selectUsersByToken, List.filter_eq_nil_iff]
  rw [key]
  unfold authorized
  cases h : selectUsersByToken db token <;> simp [Stmt.isWrite]

/-- C7: when no row with the given id and `type = 0` exists, neither `PUT /update/:id`
(with a body that passes validation) nor `DELETE /delete/:id` issues a write statement,
and the database is unchanged after the call. -/
theorem update_delete_missing_no_write (db : Db) (id : Nat) (body : ApplicantBody)
    (hashed : String)
    (hmissing : ∀ u ∈ db.users, ¬ (u.id = id ∧ u.type = 0)) :
    (∀ q ∈ (putUpdate db true id body hashed).trace, q.isWrite = false) ∧
      (putUpdate db true id body hashed).db = db ∧
      (∀ q ∈ (deleteApplicant db id).trace, q.isWrite = false) ∧
      (deleteApplicant db id).db = db := by
  have hsel : selectApplicantById db id = [] := by
    simp only [selectApplicantById, List.filter_eq_nil_iff]
    intro u hu
    have := hmissing u hu
    simpa using this
  simp [putUpdate, deleteApplicant, hsel, Stmt.isWrite]

theorem update_delete_missing_no_write_witness :
    (∀ q ∈ (putUpdate dbUsers true 3 ⟨"Carol Example", "carol@example.com", "01000000004",
        "secret123"⟩ "h4").trace, q.isWrite = false) ∧
      (putUpdate dbUsers true 3 ⟨"Carol Example", "carol@example.com", "01000000004",
        "secret123"⟩ "h4").db = dbUsers ∧
      (∀ q ∈ (deleteApplicant dbUsers 3).trace, q.isWrite = false) ∧
      (deleteApplicant dbUsers 3).db = dbUsers :=
  update_delete_missing_no_write dbUsers 3
    ⟨"Carol Example", "carol@example.com", "01000000004", "secret123"⟩ "h4" (by decide)

/-- C5: after `PUT /requests/:id`, the `user_requests` table holds the same rows in the
same order up to their status; a row that was Accepted or Declined is Accepted or
Declined afterwards, and a row that is Pending afterwards was Pending before. -/
theorem putRequest_status_one_directional (db : Db) (id : Nat) (status : Option String) :
    List.Forall₂
      (fun a b : UserRequest =>
        b.id = a.id ∧ b.user_id = a.user_id ∧ b.job_id = a.job_id ∧
        b.requested_time = a.requested_time ∧
        ((a.status = Status.Accepted ∨ a.status = Status.Declined) →
          (b.status = Status.Accepted ∨ b.status = Status.Declined)) ∧
        (b.status = Status.Pending → a.status = Status.Pending))
      db.user_requests (putRequest db id status).db.user_requests := by
  rcases putRequest_db_cases db id status with h | ⟨_, _, _, _, h⟩ |
      ⟨_, _, _, _, _, _, _, _, h | h⟩ | ⟨_, _, _, _, h⟩ <;>
    rw [h] <;>
    simp only [updateRequestStatus, declinePending, decrementJob, List.map_map,
      List.forall₂_map_right_iff, List.forall₂_same, Function.comp] <;>
    intro x _ <;> cases hx : x.status <;> simp [hx] <;> split_ifs <;> simp_all

/-- C1: accepting a request that is not yet Accepted, for a job whose lookup shows
`max_candidate_number = 1`, answers 200 with the capacity-reached message, sets the rows
with the given id to Accepted, turns every other row of the same job that was Pending
into Declined and leaves all remaining rows as they were, decrements the job so that its
lookup now shows `max_candidate_number = 0`, and does not touch `users`. -/
theorem putRequest_accept_last_slot (db : Db) (id : Nat) (ur : UserRequest)
    (rest : List UserRequest) (j : Job) (jrest : List Job)
    (hreq : selectRequestById db id = ur :: rest)
    (hdiff : ur.status ≠ Status.Accepted)
    (hjob : selectJobById db ur.job_id = j :: jrest)
    (hcap : j.max_candidate_number = 1) :
    (putRequest db id (some "Accepted")).responses =
        [⟨200, .msg "Maximum number of candidates has been reached for this job. All pending requests have been declined."⟩] ∧
      (putRequest db id (some "Accepted")).db.user_requests =
        db.user_requests.map (fun x =>
          if x.id = id then { x with status := Status.Accepted }
          else if x.status = Status.Pending ∧ x.job_id = ur.job_id then
            { x with status := Status.Declined }
          else x) ∧
      (putRequest db id (some "Accepted")).db.jobs =
        db.jobs.map (fun x =>
          if x.id = ur.job_id then
            { x with max_candidate_number := x.max_candidate_number - 1 }
          else x) ∧
      (selectJobById (putRequest db id (some "Accepted")).db ur.job_id).head? =
        some { j with max_candidate_number := 0 } ∧
      (putRequest db id (some "Accepted")).db.users = db.users := by
  have c1 : ¬ capacityIsZero (selectJobById db ur.job_id) = true := by
    simp [hjob, capacityIsZero, hcap]
  have c2 : capacityIsPositive (selectJobById db ur.job_id) = true := by
    simp [hjob, capacityIsPositive, hcap]
  have c3 : capacityIsZero (selectJobById (decrementJob db ur.job_id) ur.job_id) = true := by
    simp [selectJobById_decrementJob, hjob, capacityIsZero, hcap]
  have hsel : selectJobById
      (declinePending (decrementJob (updateRequestStatus db Status.Accepted id) ur.job_id)
        ur.job_id) ur.job_id = selectJobById (decrementJob db ur.job_id) ur.job_id := rfl
  rw [putRequest_accept db id ur rest hreq hdiff, if_neg c1, if_pos c2, if_pos c3]
  refine ⟨rfl, ?_, rfl, ?_, rfl⟩
  · simp only [declinePending, decrementJob, updateRequestStatus, List.map_map]
    apply List.map_congr_left
    intro x _
    by_cases hx : x.id = id
    · simp [hx]
    · simp [hx]
  · simp only []
    rw [hsel, selectJobById_decrementJob, hjob]
    simp [hcap]

theorem putRequest_accept_last_slot_witness :
    (putRequest dbOneSlot 1 (some "Accepted")).responses =
        [⟨200, .msg "Maximum number of candidates has been reached for this job. All pending requests have been declined."⟩] ∧
      (putRequest dbOneSlot 1 (some "Accepted")).db.user_requests = dbFull.user_requests ∧
      (putRequest dbOneSlot 1 (some "Accepted")).db.jobs = dbFull.jobs :=
  have h := putRequest_accept_last_slot dbOneSlot 1 ⟨1, 10, 7, 100, .Pending⟩ []
    ⟨7, "Engineer", 1⟩ [] rfl (by decide) rfl rfl
  ⟨h.1, h.2.1.trans (by decide), h.2.2.1.trans (by decide)⟩

/-- C10: for a request whose current status differs from the requested one, declining it,
or accepting it while its job lookup shows `max_candidate_number >= 2`, answers 200 with
the generic message, rewrites the status of the rows with the given id and of no other
row, leaves `jobs` unchanged when declining, decrements exactly the rows of that job by
one when accepting, and does not touch `users`. -/
theorem putRequest_ordinary_transition (db : Db) (id : Nat) (ur : UserRequest)
    (rest : List UserRequest) (status : String)
    (hreq : selectRequestById db id = ur :: rest)
    (hcase : (status = "Declined" ∧ ur.status ≠ Status.Declined) ∨
      (status = "Accepted" ∧ ur.status ≠ Status.Accepted ∧
        ∃ j jrest, selectJobById db ur.job_id = j :: jrest ∧ 2 ≤ j.max_candidate_number)) :
    (putRequest db id (some status)).responses =
        [⟨200, .msg "User request status updated successfully!"⟩] ∧
      (putRequest db id (some status)).db.user_requests =
        db.user_requests.map (fun x =>
          if x.id = id then
            { x with status := if status = "Accepted" then Status.Accepted else Status.Declined }
          else x) ∧
      (status = "Declined" → (putRequest db id (some status)).db.jobs = db.jobs) ∧
      (status = "Accepted" → (putRequest db id (some status)).db.jobs =
        db.jobs.map (fun x =>
          if x.id = ur.job_id then
            { x with max_candidate_number := x.max_candidate_number - 1 }
          else x)) ∧
      (putRequest db id (some status)).db.users = db.users := by
  rcases hcase with ⟨hs, hdiff⟩ | ⟨hs, hdiff, j, jrest, hjob, hcap⟩
  · subst hs
    rw [putRequest_decline db id ur rest hreq hdiff]
    refine ⟨rfl, ?_, fun _ => rfl, fun h => ?_, rfl⟩
    · simp [updateRequestStatus]
    · exact absurd h (by decide)
  · subst hs
    have c1 : ¬ capacityIsZero (selectJobById db ur.job_id) = true := by
      simp only [hjob, capacityIsZero, beq_iff_eq]; omega
    have c2 : capacityIsPositive (selectJobById db ur.job_id) = true := by
      simp only [hjob, capacityIsPositive, decide_eq_true_eq]; omega
    have c3 : ¬ capacityIsZero (selectJobById (decrementJob db ur.job_id) ur.job_id) = true := by
      simp only [selectJobById_decrementJob, hjob, List.map_cons, capacityIsZero, beq_iff_eq]
      omega
    rw [putRequest_accept db id ur rest hreq hdiff, if_neg c1, if_pos c2, if_neg c3]
    refine ⟨rfl, ?_, fun h => ?_, fun _ => rfl, rfl⟩
    · simp [decrementJob, updateRequestStatus]
    · exact absurd h (by decide)

theorem putRequest_ordinary_transition_witness :
    (putRequest dbThreeSlots 1 (some "Accepted")).responses =
        [⟨200, .msg "User request status updated successfully!"⟩] ∧
      (putRequest dbThreeSlots 1 (some "Accepted")).db.jobs =
        [⟨7, "Engineer", 2⟩, ⟨8, "Designer", 1⟩] :=
  have h := putRequest_ordinary_transition dbThreeSlots 1 ⟨1, 10, 7, 100, .Pending⟩ []
    "Accepted" rfl
    (Or.inr ⟨rfl, by decide, ⟨7, "Engineer", 3⟩, [], rfl, by decide⟩)
  ⟨h.1, (h.2.2.2.1 rfl).trans rfl⟩

/-- C4: if `jobs.id` is a key and every `max_candidate_number` is non-negative, then after
`PUT /requests/:id` every `max_candidate_number` is still non-negative; the `jobs` table
holds the same rows in the same order, each capacity equal to its former value or one
less, and one less only if the requested status is "Accepted" and the row is the job of
the targeted request. -/
theorem putRequest_capacity_invariant (db : Db) (id : Nat) (status : Option String)
    (hkey : (db.jobs.map Job.id).Nodup)
    (hnonneg : ∀ j ∈ db.jobs, 0 ≤ j.max_candidate_number) :
    (∀ j ∈ (putRequest db id status).db.jobs, 0 ≤ j.max_candidate_number) ∧
      List.Forall₂
        (fun a b : Job =>
          b.id = a.id ∧ b.position = a.position ∧
          (b.max_candidate_number = a.max_candidate_number ∨
            (b.max_candidate_number = a.max_candidate_number - 1 ∧
              status = some "Accepted" ∧
              ∃ ur rest, selectRequestById db id = ur :: rest ∧ a.id = ur.job_id)))
        db.jobs (putRequest db id status).db.jobs := by
  have hsame : ∀ l : List Job, (∀ j ∈ l, 0 ≤ j.max_candidate_number) →
      List.Forall₂
        (fun a b : Job =>
          b.id = a.id ∧ b.position = a.position ∧
          (b.max_candidate_number = a.max_candidate_number ∨
            (b.max_candidate_number = a.max_candidate_number - 1 ∧
              status = some "Accepted" ∧
              ∃ ur rest, selectRequestById db id = ur :: rest ∧ a.id = ur.job_id))) l l := by
    intro l _
    rw [List.forall₂_same]
    intro x _
    exact ⟨rfl, rfl, Or.inl rfl⟩
  have hdec : ∀ ur rest j0 jrest, selectRequestById db id = ur :: rest →
      status = some "Accepted" → selectJobById db ur.job_id = j0 :: jrest →
      0 < j0.max_candidate_number →
      (∀ j ∈ (decrementJob db ur.job_id).jobs, 0 ≤ j.max_candidate_number) ∧
      List.Forall₂
        (fun a b : Job =>
          b.id = a.id ∧ b.position = a.position ∧
          (b.max_candidate_number = a.max_candidate_number ∨
            (b.max_candidate_number = a.max_candidate_number - 1 ∧
              status = some "Accepted" ∧
              ∃ ur rest, selectRequestById db id = ur :: rest ∧ a.id = ur.job_id)))
        db.jobs (decrementJob db ur.job_id).jobs := by
    intro ur rest j0 jrest hreq hs hjob hpos
    have hj0 : j0 ∈ db.jobs ∧ j0.id = ur.job_id := by
      have : j0 ∈ selectJobById db ur.job_id := by rw [hjob]; exact List.mem_cons_self _ _
      simpa [selectJobById] using this
    constructor
    · intro j hj
      simp only [decrementJob, List.mem_map] at hj
      obtain ⟨a, ha, rfl⟩ := hj
      by_cases hid : a.id = ur.job_id
      · have : a = j0 := List.inj_on_of_nodup_map hkey ha hj0.1 (hid.trans hj0.2.symm)
        subst this
        simp only [hid, if_true]
        omega
      · simp only [hid, if_false]
        exact hnonneg a ha
    · simp only [decrementJob, List.forall₂_map_right_iff, List.forall₂_same]
      intro x _
      by_cases hid : x.id = ur.job_id
      · rw [if_pos hid]
        exact ⟨rfl, rfl, Or.inr ⟨rfl, hs, ur, rest, hreq, hid⟩⟩
      · rw [if_neg hid]
        exact ⟨rfl, rfl, Or.inl rfl⟩
  rcases putRequest_db_cases db id status with h | ⟨_, _, _, _, h⟩ |
      ⟨ur, rest, j0, jrest, hreq, hs, hjob, hpos, h | h⟩ | ⟨_, _, _, _, h⟩
  · rw [h]; exact ⟨hnonneg, hsame _ hnonneg⟩
  · rw [h]; exact ⟨hnonneg, hsame _ hnonneg⟩
  · rw [h]; exact hdec ur rest j0 jrest hreq hs hjob hpos
  · rw [h]; exact hdec ur rest j0 jrest hreq hs hjob hpos
  · rw [h]; exact ⟨hnonneg, hsame _ hnonneg⟩

theorem putRequest_capacity_invariant_witness :
    (dbOneSlot.jobs.map Job.id).Nodup ∧
      (⟨7, "Engineer", 0⟩ : Job) ∈ (putRequest dbOneSlot 2 (some "Accepted")).db.jobs ∧
      0 ≤ (⟨7, "Engineer", 0⟩ : Job).max_candidate_number :=
  ⟨by decide, by decide,
    (putRequest_capacity_invariant dbOneSlot 2 (some "Accepted") (by decide) (by decide)).1
      ⟨7, "Engineer", 0⟩ (by decide)⟩

/-- C8: `POST /create` with a valid body whose email is already stored answers 400 first
and still issues the insert: the number of rows with that email goes from 1 to 2. -/
theorem postCreate_duplicate_email_inserts :
    emailCount dbUsers "alice@example.com" = 1 ∧
      (postCreate dbUsers true
          ⟨"Alice Other X", "alice@example.com", "01000000009", "secret123"⟩
          "h9" "t9" 4 0).responses.head? =
        some ⟨400, .errors ["email is already exists!"]⟩ ∧
      (postCreate dbUsers true
          ⟨"Alice Other X", "alice@example.com", "01000000009", "secret123"⟩
          "h9" "t9" 4 0).trace =
        [Stmt.selectUsersByEmail "alice@example.com",
          Stmt.insertUser "Alice Other X" "alice@example.com" "h9" "01000000009" "t9"] ∧
      emailCount (postCreate dbUsers true
          ⟨"Alice Other X", "alice@example.com", "01000000009", "secret123"⟩
          "h9" "t9" 4 0).db "alice@example.com" = 2 := by
  decide

/-- C9: `GET /all` on a table with two applicants answers 200 with both records; the
first has no password field, the second still carries its stored password. -/
theorem getAll_second_record_keeps_password :
    (getAll dbUsers).responses =
      [⟨200, .users
        [⟨1, "Alice Example", "alice@example.com", none, "01000000001", "t1", 0⟩,
         ⟨2, "Bobby Example", "bobby@example.com", some "h2", "01000000002", "t2", 0⟩]⟩] := by
  decide

end Employment
